import Mathlib

/-!
Verification development for the `devops-monitoring` repository
(`src/app/app.py`), a Flask service instrumented with OpenTelemetry.

The Python functions relevant to the claims are shallowly embedded below:
  - `cpu_time_callback` (app.py lines 65-77): the System Stat Sampler,
    modelled as a function from the list of lines of `/proc/stat` to
    `Except PyError (List Observation)` (a raised Python exception is the
    `.error` case).
  - `roll_dice` / `do_roll` (app.py lines 24-33 and 46-56): the business
    endpoint, with the value returned by `randint(1, 7)` passed as an
    explicit parameter.
  - the environment-variable configuration reads (app.py lines 80-88 and
    133-144), with the process environment passed as a partial map.
Library behaviour that is not in the repository (the OpenTelemetry metrics
`collect` path and the logging instrumentor) is modelled from the spec and
marked as such in its doc comments.
-/

namespace DevopsMonitoring

/-- Decidable equality of `Except` values, for evaluating the embedded
fallible functions on concrete inputs. -/
instance exceptDecEq {ε α : Type} [DecidableEq ε] [DecidableEq α] :
    DecidableEq (Except ε α) := fun x y =>
  match x, y with
  | .ok a, .ok b =>
    if h : a = b then .isTrue (by rw [h]) else
      .isFalse (by intro hc; cases hc; exact h rfl)
  | .ok _, .error _ => .isFalse (by intro hc; cases hc)
  | .error _, .ok _ => .isFalse (by intro hc; cases hc)
  | .error e, .error f =>
    if h : e = f then .isTrue (by rw [h]) else
      .isFalse (by intro hc; cases hc; exact h rfl)

/-- Python exceptions that the embedded code can raise. -/
inductive PyError where
  | valueError
  | indexError
  | ioError
deriving DecidableEq, Repr

/-- One OpenTelemetry `Observation`: a numeric value plus the label set
`{"cpu": cpu, "state": state}` used by `cpu_time_callback`. -/
structure Observation where
  value : Int
  cpu : String
  state : String
deriving DecidableEq, Repr

/-- Helper for `pySplit`: accumulates the current (reversed) token while
scanning the character list, splitting on whitespace runs. -/
def splitTokensAux (cur : List Char) : List Char → List (List Char)
  | [] => if cur.isEmpty then [] else [cur.reverse]
  | c :: cs =>
    if c.isWhitespace then
      if cur.isEmpty then splitTokensAux [] cs
      else cur.reverse :: splitTokensAux [] cs
    else splitTokensAux (c :: cur) cs

/-- Python `str.split()` with no arguments: split on runs of whitespace,
discarding empty tokens. -/
def pySplit (s : String) : List String :=
  (splitTokensAux [] s.data).map String.mk

/-- Python `str.startswith(pre)`. -/
def pyStartsWith (s pre : String) : Bool :=
  List.isPrefixOf pre.data s.data

/-- Helper for `pyInt`: reads a nonempty all-digit character list as a
natural number, failing on any non-digit. -/
def parseDigitsAux (acc : Nat) : List Char → Option Nat
  | [] => some acc
  | c :: cs =>
    if c.isDigit then parseDigitsAux (acc * 10 + (c.toNat - 48)) cs
    else none

/-- Python `int(s)` on a whitespace-free token: an optional sign followed by
at least one decimal digit (digit-group underscores are not modelled; no
token in the claims uses them). `none` is Python's `ValueError`. -/
def pyInt (s : String) : Option Int :=
  match s.data with
  | [] => none
  | '-' :: cs =>
    match cs with
    | [] => none
    | _ :: _ => (parseDigitsAux 0 cs).map (fun n => -(n : Int))
  | '+' :: cs =>
    match cs with
    | [] => none
    | _ :: _ => (parseDigitsAux 0 cs).map (fun n => (n : Int))
  | cs => (parseDigitsAux 0 cs).map (fun n => (n : Int))

/-- The body of the `for` loop of `cpu_time_callback` on the token list of
one matched line: `cpu, *states = line.split()` (a `ValueError` on an empty
split), then `int(states[0]) // 100` and `int(states[1]) // 100`, in
Python's evaluation order (an `IndexError` on a missing token, a
`ValueError` on a non-numeric one; `//` is Python floor division,
`Int.fdiv`). -/
def processTokens : List String → Except PyError (List Observation)
  | [] => .error .valueError
  | _ :: [] => .error .indexError
  | _ :: s0 :: [] =>
    match pyInt s0 with
    | none => .error .valueError
    | some _ => .error .indexError
  | cpu :: s0 :: s1 :: _ =>
    match pyInt s0 with
    | none => .error .valueError
    | some v0 =>
      match pyInt s1 with
      | none => .error .valueError
      | some v1 =>
        .ok [⟨Int.fdiv v0 100, cpu, "user"⟩,
             ⟨Int.fdiv v1 100, cpu, "system"⟩]

/-- The body of the `for` loop of `cpu_time_callback` for one matched
line. -/
def processLine (line : String) : Except PyError (List Observation) :=
  processTokens (pySplit line)

/-- The `for line in procstat` loop of `cpu_time_callback`: stop (`break`)
at the first line not starting with `"cpu"`, otherwise process the line and
continue; an exception from a line aborts the whole callback. -/
def scanLines : List String → Except PyError (List Observation)
  | [] => .ok []
  | line :: rest =>
    if pyStartsWith line "cpu" then
      match processLine line with
      | .error e => .error e
      | .ok obs =>
        match scanLines rest with
        | .error e => .error e
        | .ok more => .ok (obs ++ more)
    else .ok []

/-- `cpu_time_callback` (app.py lines 65-77) as a function of the list of
lines of the opened `/proc/stat`: `procstat.readline()` skips the first
line, then the loop scans the rest. -/
def cpu_time_callback (source : List String) : Except PyError (List Observation) :=
  scanLines (source.drop 1)

/-- `cpu_time_callback` including the `open("/proc/stat")` step: an error
reading the source is an error of the callback. -/
def cpu_time_result (contents : Except PyError (List String)) :
    Except PyError (List Observation) :=
  match contents with
  | .error e => .error e
  | .ok lines => cpu_time_callback lines

/-- Token lists carrying at least two numeric tick fields after the label:
two decimal tick counts (nonnegative, as CPU tick counts are). -/
def goodTokens : List String → Bool
  | _ :: s0 :: s1 :: _ =>
    match pyInt s0, pyInt s1 with
    | some v0, some v1 => decide (0 ≤ v0) && decide (0 ≤ v1)
    | _, _ => false
  | _ => false

/-- A line the claims call a matched per-cpu line with numeric tick fields:
it starts with `"cpu"` and its tokens after the first are led by two tick
counts. -/
def goodCpuLine (line : String) : Bool :=
  pyStartsWith line "cpu" && goodTokens (pySplit line)

/-- What the claims say the tokens of one matched line contribute: a
`(cpu, "user")` Observation whose value is the first tick divided by 100
with the remainder discarded (truncating), then the `(cpu, "system")` one
from the second tick. -/
def claimedTokensObs : List String → List Observation
  | cpu :: s0 :: s1 :: _ =>
    [⟨((pyInt s0).getD 0) / 100, cpu, "user"⟩,
     ⟨((pyInt s1).getD 0) / 100, cpu, "system"⟩]
  | _ => []

/-- What the claims say one matched line contributes. -/
def claimedObs (line : String) : List Observation :=
  claimedTokensObs (pySplit line)

/-- The concatenation of `claimedObs` over a list of lines, in input order. -/
def claimedAllObs : List String → List Observation
  | [] => []
  | l :: ls => claimedObs l ++ claimedAllObs ls

/-- The lines of a source that the sampler's loop actually processes: after
the skipped first line, the contiguous block of lines starting with
`"cpu"`. -/
def matchedLines (source : List String) : List String :=
  (source.drop 1).takeWhile (fun l => pyStartsWith l "cpu")

/-- The first whitespace-separated token of a line, the `cpu` label. -/
def lineCpu (line : String) : String :=
  (pySplit line).headD ""

/-- The `(cpu, state)` label pairs the sampler attaches to the Observations
of a list of processed lines: `user` then `system` per line. -/
def labelPairs : List String → List (String × String)
  | [] => []
  | l :: ls => (lineCpu l, "user") :: (lineCpu l, "system") :: labelPairs ls

/-- Modelled from the spec: section 4.2's `collect()` contract is
implemented by the OpenTelemetry SDK and the Prometheus exporter, which are
not part of this repository. An instrument is either a counter holding its
running total or an observable counter whose callback, invoked at scrape
time, either returns its Observations or raises. -/
inductive Instrument where
  | counter (name : String) (total : Nat)
  | observable (name : String) (callbackResult : Except PyError (List Observation))
deriving DecidableEq, Repr

/-- Modelled from the spec: one instrument's entry in the scrape output. -/
inductive MetricOutput where
  | counterMetric (name : String) (total : Nat)
  | observableMetric (name : String) (obs : List Observation)
deriving DecidableEq, Repr

/-- Modelled from the spec: evaluating one instrument during `collect()`.
A counter emits its running total; an observable counter emits its
callback's Observations, or is omitted (`none`) when the callback fails. -/
def collectOne : Instrument → Option MetricOutput
  | .counter n t => some (.counterMetric n t)
  | .observable n r =>
    match r with
    | .ok obs => some (.observableMetric n obs)
    | .error _ => none

/-- Modelled from the spec: `collect()` per section 4.2. It is a total
function (it never raises): every registered instrument is evaluated in
registration order and a failing instrument is simply omitted. -/
def collect (instruments : List Instrument) : List MetricOutput :=
  instruments.filterMap collectOne

/-- The two instruments `init_metrics` registers (app.py lines 90-105), in
registration order: the `request_counter` counter and the `system.cpu.time`
observable counter backed by `cpu_time_callback` reading `/proc/stat`. -/
def appInstruments (total : Nat) (contents : Except PyError (List String)) :
    List Instrument :=
  [.counter "request_counter" total,
   .observable "system.cpu.time" (cpu_time_result contents)]

/-- The state a scrape can see: the counter's running total and the current
contents of `/proc/stat` (or a read error). -/
structure ScrapeState where
  counterTotal : Nat
  procStat : Except PyError (List String)
deriving DecidableEq

/-- One scrape: evaluate `collect` over the registered instruments and
return the output together with the state afterwards. The Python scrape
path only reads: it opens `/proc/stat` afresh and never writes the counter,
so the state component is returned unchanged. -/
def scrape (st : ScrapeState) : List MetricOutput × ScrapeState :=
  (collect (appInstruments st.counterTotal st.procStat), st)

/-- The HTTP response of a Flask handler: body and status code (a plain
string return carries Flask's success status 200). -/
structure HttpResponse where
  body : String
  status : Nat
deriving DecidableEq, Repr

/-- `do_roll` (app.py lines 24-33): the value of `randint(1, 7)` is passed
in as `r`; the function records it on the span and returns it. -/
def do_roll (r : Int) : Int := r

/-- The response computed by `roll_dice` (app.py lines 46-56) given the
dice value: `if result < 0 or result > 6` return the error page with
status 500, else return `str(result)` with status 200. -/
def roll_dice (r : Int) : HttpResponse :=
  if r < 0 || r > 6 then ⟨"Something went wrong!", 500⟩
  else ⟨toString r, 200⟩

/-- The generator's documented range: `randint(1, 7)` draws an integer
between 1 and 7 inclusive. -/
def randintRange (r : Int) : Prop := 1 ≤ r ∧ r ≤ 7

instance (r : Int) : Decidable (randintRange r) := by
  unfold randintRange; infer_instance

/-- The declared valid dice range 1 through 6. -/
def validDiceRange (r : Int) : Prop := 1 ≤ r ∧ r ≤ 6

instance (r : Int) : Decidable (validDiceRange r) := by
  unfold validDiceRange; infer_instance

/-- The observable steps of one `roll_dice` invocation, in program order. -/
inductive Event where
  | counterAdd (n : Nat)
  | rolled (value : Int)
  | importantJob
  | responded (status : Nat)
deriving DecidableEq, Repr

/-- The straight-line body of `roll_dice` (app.py lines 46-56) as its event
trace: `request_counter.add(1)` first, then `do_roll`, then
`do_important_job`, then the response. -/
def roll_dice_events (r : Int) : List Event :=
  [.counterAdd 1, .rolled (do_roll r), .importantJob,
   .responded (roll_dice r).status]

/-- Whether an event is a `request_counter.add` call. -/
def isCounterAdd : Event → Bool
  | .counterAdd _ => true
  | _ => false

/-- `os.environ.get(key, default)`: the environment is a partial map from
variable names to string values. -/
def envGetD (env : String → Option String) (key dflt : String) : String :=
  (env key).getD dflt

/-- The configuration values the program reads from the environment. -/
structure Config where
  serviceName : String
  traceEndpoint : String
  host : String
  port : Int
deriving DecidableEq, Repr

/-- The configuration reads of app.py: `APP_SERVICE_NAME` (line 133,
default `"my-python-service"`), `TRACE_ENDPOINT` (line 83, default
`"http://localhost:4317"`), `APP_HOST_NAME` (line 142, default `"0.0.0.0"`)
and `APP_PORT` (line 143, default the integer 5000, with `int(...)` applied
to any value found, raising `ValueError` on a non-numeric one). -/
def mkConfig (env : String → Option String) : Except PyError Config :=
  let svc := envGetD env "APP_SERVICE_NAME" "my-python-service"
  let endpt := envGetD env "TRACE_ENDPOINT" "http://localhost:4317"
  let host := envGetD env "APP_HOST_NAME" "0.0.0.0"
  match env "APP_PORT" with
  | none => .ok ⟨svc, endpt, host, 5000⟩
  | some s =>
    match pyInt s with
    | none => .error .valueError
    | some p => .ok ⟨svc, endpt, host, p⟩

/-- A span context: trace id, span id, sampled flag. -/
structure SpanContext where
  traceId : Nat
  spanId : Nat
  sampled : Bool
deriving DecidableEq, Repr

/-- A lower-case hexadecimal digit. -/
def hexDigit (n : Nat) : Char :=
  if n < 10 then Char.ofNat (48 + n) else Char.ofNat (87 + n)

/-- `width` lower-case hexadecimal digits of `v`, most significant first
(Python's `format(v, "032x")` / `format(v, "016x")` for values that fit). -/
def hexPad : Nat → Nat → List Char
  | 0, _ => []
  | w + 1, v => hexPad w (v / 16) ++ [hexDigit (v % 16)]

/-- Modelled from the spec: the Log Correlator (`LoggingInstrumentor`,
configured in `init_logs`, app.py lines 108-130, but implemented in the
OpenTelemetry instrumentation library, not in this repository). It reads
the current span context; when no span is active it uses the invalid
context whose identifiers are zero, and formats trace id and span id as 32
and 16 hex digits. -/
def currentSpanContext (active : Option SpanContext) : SpanContext :=
  active.getD ⟨0, 0, false⟩

/-- The record fields the Log Correlator injects before formatting. -/
structure OtelLogFields where
  otelTraceID : String
  otelSpanID : String
  otelServiceName : String
  otelTraceSampled : String
deriving DecidableEq, Repr

/-- Modelled from the spec: the injected fields of one log record, from the
currently active span context (or its all-zero stand-in) and the service
name. Every field is a total `String`: none can be null or missing. -/
def logRecordFields (active : Option SpanContext) (serviceName : String) :
    OtelLogFields :=
  let ctx := currentSpanContext active
  ⟨String.mk (hexPad 32 ctx.traceId),
   String.mk (hexPad 16 ctx.spanId),
   serviceName,
   if ctx.sampled then "True" else "False"⟩

/-- Looking up one of the injected fields by its format-string name. -/
def otelLookup (f : OtelLogFields) (name : String) : Option String :=
  if name = "otelTraceID" then some f.otelTraceID
  else if name = "otelSpanID" then some f.otelSpanID
  else if name = "otelServiceName" then some f.otelServiceName
  else if name = "otelTraceSampled" then some f.otelTraceSampled
  else none

/-- The log format string configured by `init_logs` (app.py line 113). -/
def configuredLogFormat : String :=
  "%(asctime)s %(levelname)s [%(name)s] [%(filename)s:%(lineno)d] [trace_id=%(otelTraceID)s span_id=%(otelSpanID)s resource.service.name=%(otelServiceName)s trace_sampled=%(otelTraceSampled)s] - %(message)s"

/-- Helper for `formatRefs`: the field name up to the closing parenthesis,
and the rest of the characters. -/
def takeFieldName : List Char → List Char × List Char
  | [] => ([], [])
  | c :: rest =>
    if c = ')' then ([], rest)
    else
      let p := takeFieldName rest
      (c :: p.1, p.2)

/-- Helper for `formatRefs`, structurally recursive on a fuel bound. -/
def formatRefsAux : Nat → List Char → List String
  | 0, _ => []
  | _ + 1, [] => []
  | fuel + 1, c :: rest =>
    match rest with
    | c2 :: rest2 =>
      if c = '%' ∧ c2 = '(' then
        let p := takeFieldName rest2
        String.mk p.1 :: formatRefsAux fuel p.2
      else formatRefsAux fuel (c2 :: rest2)
    | [] => []

/-- The `%(name)…` field references of a printf-style logging format
string, in order. -/
def formatRefs (fmt : String) : List String :=
  formatRefsAux fmt.data.length fmt.data

/-- The four trace-correlation fields the claims are about. -/
def otelFieldNames : List String :=
  ["otelTraceID", "otelSpanID", "otelServiceName", "otelTraceSampled"]

example : pySplit "cpu0 10 20" = ["cpu0", "10", "20"] := by decide
example : pySplit "cpu  100 200" = ["cpu", "100", "200"] := by decide
example : pyInt "500" = some 500 := by decide
example : pyStartsWith "cpu0 10 20" "cpu" = true := by decide
example :
    cpu_time_callback ["cpu  100 200", "cpu0 10 20", "cpu1 30 40"] =
      .ok [⟨0, "cpu0", "user"⟩, ⟨0, "cpu0", "system"⟩,
           ⟨0, "cpu1", "user"⟩, ⟨0, "cpu1", "system"⟩] := by decide
example : cpu_time_callback ["hdr", "cpu0 500 600"] =
    .ok [⟨5, "cpu0", "user"⟩, ⟨6, "cpu0", "system"⟩] := by decide
example : cpu_time_callback ["hdr", "cpu0 5"] = .error .indexError := by decide

lemma processTokens_of_goodTokens (ts : List String) (h : goodTokens ts = true) :
    processTokens ts = .ok (claimedTokensObs ts) := by
  match ts with
  | [] => simp [goodTokens] at h
  | [_] => simp [goodTokens] at h
  | [_, _] => simp [goodTokens] at h
  | cpu :: s0 :: s1 :: rest =>
    cases h0 : pyInt s0 with
    | none => simp [goodTokens, h0] at h
    | some v0 =>
      cases h1 : pyInt s1 with
      | none => simp [goodTokens, h0, h1] at h
      | some v1 =>
        simp [processTokens, claimedTokensObs, h0, h1,
          Int.fdiv_eq_ediv v0 (by norm_num : (0 : Int) ≤ 100),
          Int.fdiv_eq_ediv v1 (by norm_num : (0 : Int) ≤ 100)]

lemma processLine_of_goodCpuLine (l : String) (h : goodCpuLine l = true) :
    processLine l = .ok (claimedObs l) := by
  unfold goodCpuLine at h
  rw [Bool.and_eq_true] at h
  exact processTokens_of_goodTokens (pySplit l) h.2

lemma goodCpuLine_startsWith (l : String) (h : goodCpuLine l = true) :
    pyStartsWith l "cpu" = true := by
  unfold goodCpuLine at h
  rw [Bool.and_eq_true] at h
  exact h.1

lemma scanLines_of_goodCpuLines (ls : List String)
    (h : ∀ l ∈ ls, goodCpuLine l = true) :
    scanLines ls = .ok (claimedAllObs ls) := by
  induction ls with
  | nil => rfl
  | cons l ls ih =>
    have hl := h l (List.mem_cons_self l ls)
    have ihl := ih (fun x hx => h x (List.mem_cons_of_mem _ hx))
    simp [scanLines, goodCpuLine_startsWith l hl,
      processLine_of_goodCpuLine l hl, ihl, claimedAllObs]

/-- C1: for an input whose first line is skipped and whose later lines all
start with `"cpu"` and carry at least two numeric tick fields, the sampler
emits, per line in input order, the `(cpu, "user")` Observation valued at
the first tick divided by 100 with the remainder discarded, then the
`(cpu, "system")` Observation valued at the second tick divided by 100. -/
theorem cpu_sampler_emits_user_then_system_per_line (first : String)
    (rest : List String) (h : ∀ l ∈ rest, goodCpuLine l = true) :
    cpu_time_callback (first :: rest) = .ok (claimedAllObs rest) := by
  unfold cpu_time_callback
  simpa using scanLines_of_goodCpuLines rest h

/-- C1 witness: the spec's 3-line input yields exactly the four claimed
Observations, and tick values 500 and 600 yield 5 and 6. -/
theorem cpu_sampler_emits_user_then_system_per_line_witness :
    (∀ l ∈ ["cpu0 10 20", "cpu1 30 40"], goodCpuLine l = true) ∧
    cpu_time_callback ["cpu  100 200", "cpu0 10 20", "cpu1 30 40"] =
      .ok [⟨0, "cpu0", "user"⟩, ⟨0, "cpu0", "system"⟩,
           ⟨0, "cpu1", "user"⟩, ⟨0, "cpu1", "system"⟩] ∧
    (∀ l ∈ ["cpu0 500 600"], goodCpuLine l = true) ∧
    cpu_time_callback ["cpu  100 200", "cpu0 500 600"] =
      .ok [⟨5, "cpu0", "user"⟩, ⟨6, "cpu0", "system"⟩] :=
  ⟨by decide,
   (cpu_sampler_emits_user_then_system_per_line "cpu  100 200"
     ["cpu0 10 20", "cpu1 30 40"] (by decide)).trans (by decide),
   by decide,
   (cpu_sampler_emits_user_then_system_per_line "cpu  100 200"
     ["cpu0 500 600"] (by decide)).trans (by decide)⟩

lemma scanLines_stops (bad : String) (hb : pyStartsWith bad "cpu" = false)
    (pre post : List String) :
    scanLines (pre ++ bad :: post) = scanLines pre := by
  induction pre with
  | nil => simp [scanLines, hb]
  | cons l ls ih => simp only [List.cons_append, scanLines, List.append_eq, ih]

/-- C2: after the skipped first line, the sampler stops at the first line
that does not start with `"cpu"`: the run over a source that continues past
that line equals the run over the source truncated right before it, so no
Observation comes from the non-matching line or from anything later. -/
theorem cpu_sampler_stops_at_first_nonmatching (first bad : String)
    (pre post : List String) (hb : pyStartsWith bad "cpu" = false) :
    cpu_time_callback (first :: (pre ++ bad :: post)) =
      cpu_time_callback (first :: pre) := by
  unfold cpu_time_callback
  simpa using scanLines_stops bad hb pre post

/-- C2 witness: a non-matching `intr` line ends the scan even though a
matching `cpu1` line follows it. -/
theorem cpu_sampler_stops_at_first_nonmatching_witness :
    pyStartsWith "intr 12345" "cpu" = false ∧
    cpu_time_callback ["hdr", "cpu0 1 2", "intr 12345", "cpu1 3 4"] =
      cpu_time_callback ["hdr", "cpu0 1 2"] ∧
    cpu_time_callback ["hdr", "cpu0 1 2", "intr 12345", "cpu1 3 4"] =
      .ok [⟨0, "cpu0", "user"⟩, ⟨0, "cpu0", "system"⟩] :=
  ⟨by decide,
   cpu_sampler_stops_at_first_nonmatching "hdr" "intr 12345"
     ["cpu0 1 2"] ["cpu1 3 4"] (by decide),
   by decide⟩

/-- C10: a matched line whose token list carries two numeric ticks followed
by arbitrarily many extra fields produces exactly two Observations, user
then system; the extra fields are ignored, both at the line level and when
the line is the sole per-cpu row of a source. -/
theorem cpu_sampler_two_observations_per_line (hdr line cpu s0 s1 : String)
    (extra : List String) (v0 v1 : Int)
    (hs : pyStartsWith line "cpu" = true)
    (hsp : pySplit line = cpu :: s0 :: s1 :: extra)
    (h0 : pyInt s0 = some v0) (h1 : pyInt s1 = some v1) :
    processLine line =
      .ok [⟨Int.fdiv v0 100, cpu, "user"⟩, ⟨Int.fdiv v1 100, cpu, "system"⟩] ∧
    cpu_time_callback [hdr, line] =
      .ok [⟨Int.fdiv v0 100, cpu, "user"⟩, ⟨Int.fdiv v1 100, cpu, "system"⟩] := by
  have hp : processLine line =
      .ok [⟨Int.fdiv v0 100, cpu, "user"⟩, ⟨Int.fdiv v1 100, cpu, "system"⟩] := by
    unfold processLine
    rw [hsp]
    simp [processTokens, h0, h1]
  refine ⟨hp, ?_⟩
  unfold cpu_time_callback
  simp [scanLines, hs, hp]

/-- C10 witness: a line in the real `/proc/stat` shape with ten tick
columns still yields exactly the two Observations. -/
theorem cpu_sampler_two_observations_per_line_witness :
    pyStartsWith "cpu0 100 200 300 400 500 600 700 800 900 1000" "cpu" = true ∧
    pySplit "cpu0 100 200 300 400 500 600 700 800 900 1000" =
      "cpu0" :: "100" :: "200" ::
        ["300", "400", "500", "600", "700", "800", "900", "1000"] ∧
    pyInt "100" = some 100 ∧ pyInt "200" = some 200 ∧
    processLine "cpu0 100 200 300 400 500 600 700 800 900 1000" =
      .ok [⟨1, "cpu0", "user"⟩, ⟨2, "cpu0", "system"⟩] ∧
    cpu_time_callback ["hdr", "cpu0 100 200 300 400 500 600 700 800 900 1000"] =
      .ok [⟨1, "cpu0", "user"⟩, ⟨2, "cpu0", "system"⟩] :=
  ⟨by decide, by decide, by decide, by decide,
   ((cpu_sampler_two_observations_per_line "hdr"
      "cpu0 100 200 300 400 500 600 700 800 900 1000" "cpu0" "100" "200"
      ["300", "400", "500", "600", "700", "800", "900", "1000"] 100 200
      (by decide) (by decide) (by decide) (by decide)).1).trans (by decide),
   ((cpu_sampler_two_observations_per_line "hdr"
      "cpu0 100 200 300 400 500 600 700 800 900 1000" "cpu0" "100" "200"
      ["300", "400", "500", "600", "700", "800", "900", "1000"] 100 200
      (by decide) (by decide) (by decide) (by decide)).2).trans (by decide)⟩

lemma processTokens_ok_labels (ts : List String) (obs : List Observation)
    (h : processTokens ts = .ok obs) :
    obs.map (fun o => (o.cpu, o.state)) =
      [(ts.headD "", "user"), (ts.headD "", "system")] := by
  match ts with
  | [] => simp [processTokens] at h
  | [_] => simp [processTokens] at h
  | [_, s0] =>
    cases h0 : pyInt s0 with
    | none => simp [processTokens, h0] at h
    | some v0 => simp [processTokens, h0] at h
  | cpu :: s0 :: s1 :: rest =>
    cases h0 : pyInt s0 with
    | none => simp [processTokens, h0] at h
    | some v0 =>
      cases h1 : pyInt s1 with
      | none => simp [processTokens, h0, h1] at h
      | some v1 =>
        simp only [processTokens, h0, h1, Except.ok.injEq] at h
        subst h
        simp

lemma processLine_ok_labels (l : String) (obs : List Observation)
    (h : processLine l = .ok obs) :
    obs.map (fun o => (o.cpu, o.state)) =
      [(lineCpu l, "user"), (lineCpu l, "system")] := by
  unfold lineCpu
  exact processTokens_ok_labels (pySplit l) obs h

lemma scanLines_ok_labels (ls : List String) (obs : List Observation)
    (h : scanLines ls = .ok obs) :
    obs.map (fun o => (o.cpu, o.state)) =
      labelPairs (ls.takeWhile (fun l => pyStartsWith l "cpu")) := by
  induction ls generalizing obs with
  | nil =>
    simp only [scanLines, Except.ok.injEq] at h
    subst h
    simp [labelPairs]
  | cons l ls ih =>
    by_cases hs : pyStartsWith l "cpu" = true
    · rw [scanLines, if_pos hs] at h
      cases hp : processLine l with
      | error e => rw [hp] at h; cases h
      | ok o2 =>
        rw [hp] at h
        cases hsc : scanLines ls with
        | error e => rw [hsc] at h; cases h
        | ok more =>
          rw [hsc] at h
          simp only [Except.ok.injEq] at h
          subst h
          rw [List.takeWhile_cons]
          simp only [hs, if_true]
          rw [labelPairs, List.map_append,
            processLine_ok_labels l o2 hp, ih more hsc]
          rfl
    · rw [scanLines, if_neg hs] at h
      simp only [Except.ok.injEq] at h
      subst h
      rw [List.takeWhile_cons]
      simp only [Bool.not_eq_true] at hs
      simp [hs, labelPairs]

lemma fst_mem_of_mem_labelPairs (p : String × String) :
    ∀ ls : List String, p ∈ labelPairs ls → p.1 ∈ ls.map lineCpu := by
  intro ls
  induction ls with
  | nil => simp [labelPairs]
  | cons l ls ih =>
    intro hp
    rw [labelPairs] at hp
    rcases List.mem_cons.mp hp with h1 | hp2
    · subst h1; simp
    · rcases List.mem_cons.mp hp2 with h2 | hp3
      · subst h2; simp
      · exact List.mem_cons_of_mem _ (ih hp3)

lemma labelPairs_nodup (ls : List String)
    (h : (ls.map lineCpu).Nodup) : (labelPairs ls).Nodup := by
  induction ls with
  | nil => simp [labelPairs]
  | cons l ls ih =>
    rw [List.map_cons, List.nodup_cons] at h
    obtain ⟨hnm, hnd⟩ := h
    rw [labelPairs, List.nodup_cons, List.nodup_cons]
    refine ⟨?_, ?_, ih hnd⟩
    · intro hmem
      rcases List.mem_cons.mp hmem with h1 | h2
      · exact absurd h1 (by simp)
      · exact hnm (fst_mem_of_mem_labelPairs _ ls h2)
    · intro hmem
      exact hnm (fst_mem_of_mem_labelPairs _ ls hmem)

/-- C4: when the per-cpu lines the sampler actually processes have
pairwise-distinct first tokens, the Observations of one successful scrape
carry pairwise-distinct `(cpu, state)` label pairs. -/
theorem cpu_sampler_labels_unique (source : List String)
    (obs : List Observation) (hok : cpu_time_callback source = .ok obs)
    (hnd : ((matchedLines source).map lineCpu).Nodup) :
    (obs.map (fun o => (o.cpu, o.state))).Nodup := by
  rw [scanLines_ok_labels (source.drop 1) obs hok]
  exact labelPairs_nodup _ hnd

/-- C4 witness: a source whose aggregate `cpu` row and `cpu0` row are both
matched still yields four pairwise-distinct label pairs. -/
theorem cpu_sampler_labels_unique_witness :
    cpu_time_callback ["hdr", "cpu 1 2", "cpu0 3 4"] =
      .ok [⟨0, "cpu", "user"⟩, ⟨0, "cpu", "system"⟩,
           ⟨0, "cpu0", "user"⟩, ⟨0, "cpu0", "system"⟩] ∧
    ((matchedLines ["hdr", "cpu 1 2", "cpu0 3 4"]).map lineCpu).Nodup ∧
    (([⟨0, "cpu", "user"⟩, ⟨0, "cpu", "system"⟩,
       ⟨0, "cpu0", "user"⟩, ⟨0, "cpu0", "system"⟩] : List Observation).map
        (fun o => (o.cpu, o.state))).Nodup :=
  ⟨by decide, by decide,
   cpu_sampler_labels_unique ["hdr", "cpu 1 2", "cpu0 3 4"] _
     (by decide) (by decide)⟩

/-- C3: a scrape during which the System Stat Sampler fails — whatever the
error: an unreadable source or a malformed matched row — still emits every
other registered instrument: `collect` (which is a total function, so the
scrape never raises) returns exactly the request counter's entry. -/
theorem failing_sampler_only_drops_cpu_instrument (total : Nat)
    (contents : Except PyError (List String)) (e : PyError)
    (h : cpu_time_result contents = .error e) :
    collect (appInstruments total contents) =
      [.counterMetric "request_counter" total] := by
  simp [collect, appInstruments, collectOne, h]

/-- C3 witness: a malformed matched row (a missing tick token, Python's
`IndexError`) fails the callback, and the scrape still emits the request
counter. -/
theorem failing_sampler_only_drops_cpu_instrument_witness :
    cpu_time_result (.ok ["hdr", "cpu0 5"]) = .error .indexError ∧
    collect (appInstruments 7 (.ok ["hdr", "cpu0 5"])) =
      [.counterMetric "request_counter" 7] :=
  ⟨by decide,
   failing_sampler_only_drops_cpu_instrument 7 (.ok ["hdr", "cpu0 5"])
     .indexError (by decide)⟩

/-- C5: for every value the generator `randint(1, 7)` can return, the
handler responds with status 500 exactly when the value falls outside the
declared valid range 1 through 6, and otherwise returns the value as a
string with the success status 200. -/
theorem rolldice_error_iff_outside_valid_range (r : Int)
    (h : randintRange r) :
    ((roll_dice r).status = 500 ↔ ¬ validDiceRange r) ∧
    (validDiceRange r → roll_dice r = ⟨toString r, 200⟩) := by
  obtain ⟨h1, h7⟩ := h
  unfold roll_dice validDiceRange
  split
  next hc =>
    simp only [Bool.or_eq_true, decide_eq_true_eq] at hc
    refine ⟨⟨fun _ hv => by omega, fun _ => rfl⟩, fun hv => by omega⟩
  next hc =>
    simp only [Bool.or_eq_true, decide_eq_true_eq, not_or, not_lt] at hc
    refine ⟨⟨fun h500 => by simp at h500, fun hnv => ?_⟩, fun _ => rfl⟩
    exact absurd ⟨h1, by omega⟩ hnv

/-- C5 witness: the value 7, inside the generator's range but outside the
valid dice range, yields status 500; the value 3 yields the body "3" with
status 200. -/
theorem rolldice_error_iff_outside_valid_range_witness :
    randintRange 7 ∧
    (((roll_dice 7).status = 500 ↔ ¬ validDiceRange 7) ∧
      (validDiceRange 7 → roll_dice 7 = ⟨toString (7 : Int), 200⟩)) ∧
    randintRange 3 ∧
    (((roll_dice 3).status = 500 ↔ ¬ validDiceRange 3) ∧
      (validDiceRange 3 → roll_dice 3 = ⟨toString (3 : Int), 200⟩)) ∧
    roll_dice 7 = ⟨"Something went wrong!", 500⟩ ∧
    roll_dice 3 = ⟨"3", 200⟩ :=
  ⟨by decide, rolldice_error_iff_outside_valid_range 7 (by decide),
   by decide, rolldice_error_iff_outside_valid_range 3 (by decide),
   by decide, by decide⟩

/-- C6: every `roll_dice` invocation — whatever the dice value, including
those that end in the 500 response — performs exactly one
`request_counter.add(1)`, and it is the first step of the handler, before
the roll and the range check. -/
theorem rolldice_increments_counter_exactly_once (r : Int) :
    (roll_dice_events r).countP isCounterAdd = 1 ∧
    (roll_dice_events r).head? = some (.counterAdd 1) := by
  constructor
  · simp [roll_dice_events, List.countP_cons, isCounterAdd]
  · rfl

/-- C7: a scrape only reads: it leaves the counter total and the CPU-stat
source untouched, hence a second scrape over the unchanged state returns
the same output as the first. -/
theorem scrape_deterministic_under_unchanged_state (st : ScrapeState) :
    (scrape st).2 = st ∧ (scrape (scrape st).2).1 = (scrape st).1 :=
  ⟨rfl, rfl⟩

/-- C8 counterexample: in an empty environment the configured
trace-collector endpoint is not the claimed bare `localhost:4317` — the
code's default carries the `http://` scheme. -/
theorem config_trace_endpoint_not_bare_counterexample :
    ¬ ((mkConfig fun _ => none).map Config.traceEndpoint =
        .ok "localhost:4317") := by decide

/-- C8 (amended): with all four variables absent, the configuration is the
service name `"my-python-service"`, the trace endpoint
`"http://localhost:4317"`, the bind host `"0.0.0.0"` and the bind
port 5000. -/
theorem config_env_defaults (env : String → Option String)
    (h1 : env "APP_SERVICE_NAME" = none) (h2 : env "TRACE_ENDPOINT" = none)
    (h3 : env "APP_HOST_NAME" = none) (h4 : env "APP_PORT" = none) :
    mkConfig env =
      .ok ⟨"my-python-service", "http://localhost:4317", "0.0.0.0", 5000⟩ := by
  simp [mkConfig, envGetD, h1, h2, h3, h4]

/-- C8 witness: the empty environment takes every default. -/
theorem config_env_defaults_witness :
    ((fun _ => none : String → Option String) "APP_SERVICE_NAME" = none) ∧
    mkConfig (fun _ => none) =
      .ok ⟨"my-python-service", "http://localhost:4317", "0.0.0.0", 5000⟩ :=
  ⟨rfl, config_env_defaults (fun _ => none) rfl rfl rfl rfl⟩

set_option maxRecDepth 8000 in
lemma hexPad32_zero :
    String.mk (hexPad 32 0) = "00000000000000000000000000000000" := by decide

set_option maxRecDepth 8000 in
lemma hexPad16_zero : String.mk (hexPad 16 0) = "0000000000000000" := by decide

set_option maxRecDepth 8000 in
/-- C9: every log record emitted with no active span carries the all-zero
32-digit trace id and 16-digit span id and a definite sampling flag; each
of the four otel fields the configured format string references is present
in the injected record fields, so the format never breaks. -/
theorem no_span_log_record_all_zero_sentinel (svc name : String)
    (hn : name ∈ otelFieldNames) :
    name ∈ formatRefs configuredLogFormat ∧
    (otelLookup (logRecordFields none svc) name).isSome = true ∧
    (logRecordFields none svc).otelTraceID =
      "00000000000000000000000000000000" ∧
    (logRecordFields none svc).otelSpanID = "0000000000000000" ∧
    (logRecordFields none svc).otelServiceName = svc ∧
    (logRecordFields none svc).otelTraceSampled = "False" := by
  simp only [otelFieldNames, List.mem_cons, List.not_mem_nil, or_false] at hn
  rcases hn with rfl | rfl | rfl | rfl <;>
    exact ⟨by decide, rfl, hexPad32_zero, hexPad16_zero, rfl, rfl⟩

set_option maxRecDepth 8000 in
/-- C9 witness: the `otelTraceID` reference of the configured format, for a
record emitted with no active span under the default service name. -/
theorem no_span_log_record_all_zero_sentinel_witness :
    "otelTraceID" ∈ otelFieldNames ∧
    ("otelTraceID" ∈ formatRefs configuredLogFormat ∧
      (otelLookup (logRecordFields none "my-python-service")
        "otelTraceID").isSome = true ∧
      (logRecordFields none "my-python-service").otelTraceID =
        "00000000000000000000000000000000" ∧
      (logRecordFields none "my-python-service").otelSpanID =
        "0000000000000000" ∧
      (logRecordFields none "my-python-service").otelServiceName =
        "my-python-service" ∧
      (logRecordFields none "my-python-service").otelTraceSampled =
        "False") :=
  ⟨by decide,
   no_span_log_record_all_zero_sentinel "my-python-service" "otelTraceID"
     (by decide)⟩

end DevopsMonitoring
